import Mathlib

/-!
Verification of the cluster workload scheduler.

The definitions below are a shallow embedding of the scheduling subsystem:
the resource algebra and placement engine (`app/services/scheduler_service.py`,
classes `ResourceManager` and `SchedulerCore`), the service-level scheduling
attempt (`SchedulerService.try_schedule_deployment` together with the queue
client `QueueService.enqueue_deployment` and the mutex `RedisLock`), the worker
loop (`worker.process_deployment`) and deployment creation
(`DeploymentService.create_deployment`).  Python integers are modelled as `Int`,
statuses as the literal strings the code stores, the job queue as a list of
enqueue events.
-/

namespace Scheduler

/-- Embeds the dataclass `ResourceSpec` (ram, cpu, gpu). -/
structure ResourceSpec where
  ram : Int
  cpu : Int
  gpu : Int
deriving DecidableEq

/-- Embeds the dataclass `DeploymentInfo` used by the placement engine. -/
structure DeploymentInfo where
  id : Nat
  name : String
  cluster_id : Nat
  resources : ResourceSpec
  priority : Int
  status : String
  created_at : Nat
deriving DecidableEq

/-- Embeds the dataclass `ClusterInfo`: a snapshot of a cluster's capacity and
its running deployments. -/
structure ClusterInfo where
  id : Nat
  resources : ResourceSpec
  running_deployments : List DeploymentInfo
deriving DecidableEq

/-- `ResourceManager.calculate_used_resources`: dimension-wise sum over a list
of deployments. -/
def calculate_used_resources (deployments : List DeploymentInfo) : ResourceSpec :=
  { ram := (deployments.map (fun d => d.resources.ram)).sum
    cpu := (deployments.map (fun d => d.resources.cpu)).sum
    gpu := (deployments.map (fun d => d.resources.gpu)).sum }

/-- `ResourceManager.can_fit_deployment`: the requested triple is dominated by
the available triple in every dimension. -/
def can_fit_deployment (deployment : DeploymentInfo) (available : ResourceSpec) : Bool :=
  deployment.resources.ram ≤ available.ram &&
  deployment.resources.cpu ≤ available.cpu &&
  deployment.resources.gpu ≤ available.gpu

/-- `ResourceManager.calculate_resource_utilization`: ram + cpu + gpu
(the "score" of the spec). -/
def calculate_resource_utilization (resources : ResourceSpec) : Int :=
  resources.ram + resources.cpu + resources.gpu

/-- The sort key used by `find_preemptible_deployments`:
`key=lambda d: (-utilization(d.resources), d.priority)` with Python's stable
ascending sort; `sortKeyLe a b` says `a`'s key is at most `b`'s key. -/
def sortKeyLe (a b : DeploymentInfo) : Prop :=
  calculate_resource_utilization b.resources < calculate_resource_utilization a.resources ∨
    (calculate_resource_utilization a.resources = calculate_resource_utilization b.resources ∧
      a.priority ≤ b.priority)

instance (a b : DeploymentInfo) : Decidable (sortKeyLe a b) :=
  inferInstanceAs (Decidable (_ ∨ _))

/-- The candidate pool of `find_preemptible_deployments`: running deployments
of strictly lower priority than the required deployment. -/
def lower_priority_candidates (running : List DeploymentInfo)
    (required : DeploymentInfo) : List DeploymentInfo :=
  running.filter (fun d => decide (d.priority < required.priority))

/-- The sorted candidate list of `find_preemptible_deployments`
(`sorted(candidates, key=...)`, a stable sort). -/
def sorted_candidates (running : List DeploymentInfo)
    (required : DeploymentInfo) : List DeploymentInfo :=
  List.insertionSort sortKeyLe (lower_priority_candidates running required)

/-- The selection loop of `find_preemptible_deployments`: walk the sorted
candidates, breaking as soon as the acquired resources dominate the request in
every dimension, otherwise appending the candidate and accumulating its
resources.  Note the break condition compares the request against `acquired`
alone; the cluster's already-free capacity is not consulted. -/
def select_preempt (required : ResourceSpec) (acquired : ResourceSpec) :
    List DeploymentInfo → List DeploymentInfo
  | [] => []
  | d :: rest =>
    if required.ram ≤ acquired.ram ∧ required.cpu ≤ acquired.cpu ∧
        required.gpu ≤ acquired.gpu then
      []
    else
      d :: select_preempt required
        { ram := acquired.ram + d.resources.ram
          cpu := acquired.cpu + d.resources.cpu
          gpu := acquired.gpu + d.resources.gpu } rest

/-- The final check of `find_preemptible_deployments` ("Verify we got enough
resources"): return `[]` unless the selected deployments' summed resources
dominate the request in every dimension. -/
def verify_preempt (required : ResourceSpec) (to_preempt : List DeploymentInfo) :
    List DeploymentInfo :=
  if (calculate_used_resources to_preempt).ram < required.ram ∨
      (calculate_used_resources to_preempt).cpu < required.cpu ∨
      (calculate_used_resources to_preempt).gpu < required.gpu then
    []
  else to_preempt

/-- `SchedulerCore.find_preemptible_deployments`: filter to lower priority,
sort by (−utilization, priority), greedily select until the acquired resources
cover the request, and return `[]` unless the selected resources dominate the
request in every dimension. -/
def find_preemptible_deployments (running : List DeploymentInfo)
    (required : DeploymentInfo) : List DeploymentInfo :=
  if lower_priority_candidates running required = [] then []
  else
    verify_preempt required.resources
      (select_preempt required.resources ⟨0, 0, 0⟩ (sorted_candidates running required))

/-- The availability computed by `SchedulerCore.can_schedule_deployment`:
`capacity − used` per dimension, with no clamping. -/
def available_resources (cluster : ClusterInfo) : ResourceSpec :=
  { ram := cluster.resources.ram - (calculate_used_resources cluster.running_deployments).ram
    cpu := cluster.resources.cpu - (calculate_used_resources cluster.running_deployments).cpu
    gpu := cluster.resources.gpu - (calculate_used_resources cluster.running_deployments).gpu }

/-- `SchedulerCore.can_schedule_deployment`: admit directly when the request
fits in `available = capacity − used`, otherwise fall back to the preemption
search, returning `(preempt ≠ [], preempt)`. -/
def can_schedule_deployment (deployment : DeploymentInfo) (cluster : ClusterInfo) :
    Bool × List DeploymentInfo :=
  if can_fit_deployment deployment (available_resources cluster) then
    (true, [])
  else
    ((find_preemptible_deployments cluster.running_deployments deployment).length > 0,
      find_preemptible_deployments cluster.running_deployments deployment)

/-- Dimension-wise comparison of resource triples (the spec's `fits`). -/
def resLe (a b : ResourceSpec) : Prop :=
  a.ram ≤ b.ram ∧ a.cpu ≤ b.cpu ∧ a.gpu ≤ b.gpu

instance (a b : ResourceSpec) : Decidable (resLe a b) :=
  inferInstanceAs (Decidable (_ ∧ _))

/-- A deployment snapshot as the test fixtures build it
(`tests/test_scheduler.py`, `create_deployment_info`). -/
def mkDep (id : Nat) (ram cpu gpu priority : Int) : DeploymentInfo :=
  { id := id, name := "d", cluster_id := 1
    resources := { ram := ram, cpu := cpu, gpu := gpu }
    priority := priority, status := "running", created_at := 0 }

/-- A cluster snapshot as the test fixtures build it
(`tests/test_scheduler.py`, `create_cluster_info`). -/
def mkCluster (ram cpu gpu : Int) (running : List DeploymentInfo) : ClusterInfo :=
  { id := 1, resources := { ram := ram, cpu := cpu, gpu := gpu }
    running_deployments := running }

/-- Modelled from the spec's words, for refinement comparison only (the source
has no clamping): the availability of §4.B step 1, "`avail = capacity − used`
(by dimension; if any dimension is already over-committed, treat as 0 — never
negative)". -/
def clamped_available_resources (cluster : ClusterInfo) : ResourceSpec :=
  { ram := max 0 (available_resources cluster).ram
    cpu := max 0 (available_resources cluster).cpu
    gpu := max 0 (available_resources cluster).gpu }

/-- Modelled from the spec's words, for refinement comparison only: the
placement decision with the direct-fit check done against the clamped
availability. -/
def can_schedule_deployment_clamped (deployment : DeploymentInfo)
    (cluster : ClusterInfo) : Bool × List DeploymentInfo :=
  if can_fit_deployment deployment (clamped_available_resources cluster) then
    (true, [])
  else
    ((find_preemptible_deployments cluster.running_deployments deployment).length > 0,
      find_preemptible_deployments cluster.running_deployments deployment)

end Scheduler

namespace Scheduler

/-! ### Lemmas about the placement engine -/

@[simp] theorem used_ram (l : List DeploymentInfo) :
    (calculate_used_resources l).ram = (l.map (fun d => d.resources.ram)).sum := rfl

@[simp] theorem used_cpu (l : List DeploymentInfo) :
    (calculate_used_resources l).cpu = (l.map (fun d => d.resources.cpu)).sum := rfl

@[simp] theorem used_gpu (l : List DeploymentInfo) :
    (calculate_used_resources l).gpu = (l.map (fun d => d.resources.gpu)).sum := rfl

theorem select_preempt_append (required : ResourceSpec) (l : List DeploymentInfo) :
    ∀ acquired, ∃ t, select_preempt required acquired l ++ t = l := by
  induction l with
  | nil => exact fun acquired => ⟨[], rfl⟩
  | cons d rest ih =>
    intro acquired
    unfold select_preempt
    by_cases h : required.ram ≤ acquired.ram ∧ required.cpu ≤ acquired.cpu ∧
        required.gpu ≤ acquired.gpu
    · exact ⟨d :: rest, by simp [h]⟩
    · obtain ⟨t, ht⟩ := ih
        { ram := acquired.ram + d.resources.ram
          cpu := acquired.cpu + d.resources.cpu
          gpu := acquired.gpu + d.resources.gpu }
      exact ⟨t, by rw [if_neg h, List.cons_append, ht]⟩

theorem mem_select_preempt {required acquired : ResourceSpec}
    {l : List DeploymentInfo} {d : DeploymentInfo}
    (hd : d ∈ select_preempt required acquired l) : d ∈ l := by
  obtain ⟨t, ht⟩ := select_preempt_append required l acquired
  rw [← ht]
  exact List.mem_append_left t hd

theorem mem_verify_preempt {required : ResourceSpec} {l : List DeploymentInfo}
    {d : DeploymentInfo} (hd : d ∈ verify_preempt required l) : d ∈ l := by
  unfold verify_preempt at hd
  split at hd
  · simp at hd
  · exact hd

theorem mem_find_preemptible {running : List DeploymentInfo}
    {required d : DeploymentInfo}
    (hd : d ∈ find_preemptible_deployments running required) :
    d ∈ lower_priority_candidates running required := by
  unfold find_preemptible_deployments at hd
  split at hd
  · simp at hd
  · have h1 := mem_select_preempt (mem_verify_preempt hd)
    exact (List.perm_insertionSort sortKeyLe _).subset h1

theorem verify_preempt_sum_ge {required : ResourceSpec} {l : List DeploymentInfo}
    (h : verify_preempt required l ≠ []) :
    resLe required (calculate_used_resources (verify_preempt required l)) := by
  unfold verify_preempt at h ⊢
  by_cases hc : (calculate_used_resources l).ram < required.ram ∨
      (calculate_used_resources l).cpu < required.cpu ∨
      (calculate_used_resources l).gpu < required.gpu
  · rw [if_pos hc] at h
    exact absurd rfl h
  · rw [if_neg hc]
    push_neg at hc
    exact ⟨hc.1, hc.2.1, hc.2.2⟩

theorem find_preemptible_sum_ge {running : List DeploymentInfo}
    {required : DeploymentInfo}
    (h : find_preemptible_deployments running required ≠ []) :
    resLe required.resources
      (calculate_used_resources (find_preemptible_deployments running required)) := by
  unfold find_preemptible_deployments at h ⊢
  by_cases hcand : lower_priority_candidates running required = []
  · rw [if_pos hcand] at h
    exact absurd rfl h
  · rw [if_neg hcand] at h ⊢
    exact verify_preempt_sum_ge h

theorem find_preemptible_initial (running : List DeploymentInfo)
    (required : DeploymentInfo) :
    ∃ t, find_preemptible_deployments running required ++ t =
      sorted_candidates running required ∨
      find_preemptible_deployments running required = [] := by
  unfold find_preemptible_deployments
  split
  · exact ⟨[], Or.inr rfl⟩
  · unfold verify_preempt
    split
    · exact ⟨[], Or.inr rfl⟩
    · obtain ⟨t, ht⟩ := select_preempt_append required.resources
        (sorted_candidates running required) ⟨0, 0, 0⟩
      exact ⟨t, Or.inl ht⟩

/-! ### Concrete snapshots from the spec's literal scenarios -/

/-- Scenario S2's cluster: capacity (10,5,2), running D1(6,3,1,pri=1) and
D2(2,1,0,pri=2); also the fixture of `test_scheduler_needs_preemption`. -/
def clS2 : ClusterInfo := mkCluster 10 5 2 [mkDep 1 6 3 1 1, mkDep 2 2 1 0 2]

/-- Scenario S2's candidate D3(7,4,1,pri=5). -/
def dS2 : DeploymentInfo := mkDep 3 7 4 1 5

/-- An over-committed snapshot: capacity (10,10,1) with a running deployment
using (1,1,2), so the gpu dimension is over-committed by 1. -/
def clOver : ClusterInfo := mkCluster 10 10 1 [mkDep 1 1 1 2 1]

/-- A candidate requesting (1,1,0) at priority 1 against `clOver`. -/
def dOver : DeploymentInfo := mkDep 2 1 1 0 1

/-! ### Claim theorems about the placement engine -/

/-- Claim C1: for every cluster snapshot whose running deployments' summed
(ram, cpu, gpu) is within capacity in every dimension, any admission decided by
`can_schedule_deployment` — direct, or after removing the returned preempt set
`P` from the running set — leaves the summed resources of the running
deployments at most the cluster's capacity in every dimension.  The committed
running set after admission is `d :: rest` for any `rest` with
`running ~ P ++ rest`. -/
theorem capacity_invariant_after_admission (cluster : ClusterInfo)
    (d : DeploymentInfo) (P rest : List DeploymentInfo)
    (hcap : resLe (calculate_used_resources cluster.running_deployments) cluster.resources)
    (hdec : can_schedule_deployment d cluster = (true, P))
    (hperm : cluster.running_deployments.Perm (P ++ rest)) :
    resLe (calculate_used_resources (d :: rest)) cluster.resources := by
  obtain ⟨hc1, hc2, hc3⟩ := hcap
  simp only [used_ram, used_cpu, used_gpu] at hc1 hc2 hc3
  have hram := ((hperm.map (fun x => x.resources.ram)).sum_eq)
  have hcpu := ((hperm.map (fun x => x.resources.cpu)).sum_eq)
  have hgpu := ((hperm.map (fun x => x.resources.gpu)).sum_eq)
  simp only [List.map_append, List.sum_append] at hram hcpu hgpu
  unfold can_schedule_deployment at hdec
  split at hdec
  · rename_i hfit
    rw [Prod.mk.injEq] at hdec
    obtain ⟨-, hP⟩ := hdec
    subst hP
    simp only [List.map_nil, List.sum_nil, List.nil_append, zero_add] at hram hcpu hgpu
    simp only [can_fit_deployment, available_resources, used_ram, used_cpu, used_gpu,
      Bool.and_eq_true, decide_eq_true_eq] at hfit
    obtain ⟨⟨hf1, hf2⟩, hf3⟩ := hfit
    refine ⟨?_, ?_, ?_⟩ <;>
      simp only [used_ram, used_cpu, used_gpu, List.map_cons, List.sum_cons] <;>
      omega
  · rw [Prod.mk.injEq] at hdec
    obtain ⟨hlen, hP⟩ := hdec
    subst hP
    have hne : find_preemptible_deployments cluster.running_deployments d ≠ [] := by
      have := of_decide_eq_true hlen
      exact List.length_pos.mp this
    obtain ⟨hg1, hg2, hg3⟩ := find_preemptible_sum_ge hne
    simp only [used_ram, used_cpu, used_gpu] at hg1 hg2 hg3
    refine ⟨?_, ?_, ?_⟩ <;>
      simp only [used_ram, used_cpu, used_gpu, List.map_cons, List.sum_cons] <;>
      omega

/-- Witness for C1 at scenario S2: the admission of D3(7,4,1) with preempt set
{D1, D2} leaves the running set {D3} within the capacity (10,5,2). -/
theorem capacity_invariant_after_admission_witness :
    resLe (calculate_used_resources (dS2 :: [])) clS2.resources :=
  capacity_invariant_after_admission clS2 dS2 [mkDep 1 6 3 1 1, mkDep 2 2 1 0 2] []
    (by decide) (by decide) (by decide)

/-- Claim C2 (code evaluation at the failing input): in the literal scenario S2
— cluster (10,5,2) running D1(6,3,1,pri=1) and D2(2,1,0,pri=2), candidate
D3(7,4,1,pri=5) — the engine admits but preempts BOTH D1 and D2, because the
selection loop compares the request against the freed resources alone and never
adds the cluster's already-available (2,1,1); the spec and the repository's own
test `test_scheduler_needs_preemption` expect preempt=[D1] only. -/
theorem s2_preempts_both_victims :
    can_schedule_deployment dS2 clS2 = (true, [mkDep 1 6 3 1 1, mkDep 2 2 1 0 2]) ∧
      (can_schedule_deployment dS2 clS2).2.length ≠ 1 := by decide

/-- Claim C3: every element of the preempt list returned by
`can_schedule_deployment` has priority strictly less than the candidate's
priority. -/
theorem preempt_only_lower_priority (required : DeploymentInfo)
    (cluster : ClusterInfo) (d : DeploymentInfo)
    (hd : d ∈ (can_schedule_deployment required cluster).2) :
    d.priority < required.priority := by
  unfold can_schedule_deployment at hd
  split at hd
  · simp at hd
  · simp only at hd
    have h1 := mem_find_preemptible hd
    have h2 := List.mem_filter.mp h1
    simpa using h2.2

/-- Witness for C3 at scenario S2: D1 is in the preempt list and its priority 1
is strictly less than the candidate's priority 5. -/
theorem preempt_only_lower_priority_witness :
    (mkDep 1 6 3 1 1).priority < dS2.priority :=
  preempt_only_lower_priority dS2 clS2 (mkDep 1 6 3 1 1) (by decide)

/-- Claim C4 (counterexample): on the over-committed snapshot `clOver`
(capacity (10,10,1), running usage (1,1,2)) the availability used by the code
is negative in the gpu dimension, and the decision for the candidate (1,1,0)
differs from the decision made with availability clamped to 0: the code
rejects, the clamped variant admits directly. -/
theorem overcommit_decision_differs_from_clamped :
    can_schedule_deployment dOver clOver = (false, []) ∧
      can_schedule_deployment_clamped dOver clOver = (true, []) ∧
      (available_resources clOver).gpu = -1 := by decide

/-- Claim C4 (amended): `can_schedule_deployment` computes
`available = capacity − used` per dimension with no clamping; whenever the
snapshot is not over-committed in any dimension, this equals the clamped
availability and the decision coincides with the clamped decision. -/
theorem can_schedule_eq_clamped_of_within_capacity (d : DeploymentInfo)
    (cluster : ClusterInfo)
    (hcap : resLe (calculate_used_resources cluster.running_deployments)
      cluster.resources) :
    can_schedule_deployment d cluster = can_schedule_deployment_clamped d cluster := by
  obtain ⟨h1, h2, h3⟩ := hcap
  have havail : clamped_available_resources cluster = available_resources cluster := by
    simp only [clamped_available_resources, available_resources, used_ram, used_cpu,
      used_gpu, ResourceSpec.mk.injEq]
    refine ⟨max_eq_right ?_, max_eq_right ?_, max_eq_right ?_⟩ <;>
      simp only [used_ram, used_cpu, used_gpu] at h1 h2 h3 <;> omega
  unfold can_schedule_deployment can_schedule_deployment_clamped
  rw [havail]

/-- Witness for C4 (amended) at scenario S2's snapshot, whose usage (8,4,1) is
within the capacity (10,5,2). -/
theorem can_schedule_eq_clamped_witness :
    can_schedule_deployment dS2 clS2 = can_schedule_deployment_clamped dS2 clS2 :=
  can_schedule_eq_clamped_of_within_capacity dS2 clS2 (by decide)

/-- Claim C10: whenever `can_schedule_deployment` returns admit=true with a
non-empty preempt list `P`, the summed (ram, cpu, gpu) of `P` alone dominates
the candidate's request in every dimension, and `P` is an initial segment of
the lower-priority candidates sorted by (−utilization, priority). -/
theorem preempt_covers_request_and_is_initial (required : DeploymentInfo)
    (cluster : ClusterInfo) (P : List DeploymentInfo)
    (hdec : can_schedule_deployment required cluster = (true, P)) (hne : P ≠ []) :
    resLe required.resources (calculate_used_resources P) ∧
      ∃ t, P ++ t = sorted_candidates cluster.running_deployments required := by
  unfold can_schedule_deployment at hdec
  split at hdec
  · rw [Prod.mk.injEq] at hdec
    obtain ⟨-, hP⟩ := hdec
    exact absurd hP.symm hne
  · rw [Prod.mk.injEq] at hdec
    obtain ⟨-, hP⟩ := hdec
    subst hP
    refine ⟨find_preemptible_sum_ge hne, ?_⟩
    obtain ⟨t, ht⟩ := find_preemptible_initial cluster.running_deployments required
    rcases ht with h | h
    · exact ⟨t, h⟩
    · exact absurd h hne

/-- Witness for C10 at scenario S2: the preempt list [D1, D2] sums to (8,4,1)
which dominates the request (7,4,1), and it is an initial segment of the sorted
candidate list. -/
theorem preempt_covers_request_and_is_initial_witness :
    resLe dS2.resources (calculate_used_resources [mkDep 1 6 3 1 1, mkDep 2 2 1 0 2]) ∧
      ∃ t, [mkDep 1 6 3 1 1, mkDep 2 2 1 0 2] ++ t =
        sorted_candidates clS2.running_deployments dS2 :=
  preempt_covers_request_and_is_initial dS2 clS2 [mkDep 1 6 3 1 1, mkDep 2 2 1 0 2]
    (by decide) (by decide)

end Scheduler

namespace Scheduler

/-! ### Service-level embedding: store rows, queue, mutex, worker -/

/-- A `deployment` row of the store (`app/db/models/deployment.py`); `status`
is one of the literal strings "pending", "running", "evicted", "deleted". -/
structure DBDeployment where
  id : Nat
  name : String
  cluster_id : Nat
  status : String
  priority : Int
  ram : Int
  cpu : Int
  gpu : Int
  created_at : Nat
  updated_at : Nat
deriving DecidableEq

/-- A `cluster` row of the store (`app/db/models/cluster.py`); `status` is
"active" or "deleted". -/
structure DBCluster where
  id : Nat
  organisation_id : Nat
  name : String
  ram : Int
  cpu : Int
  gpu : Int
  status : String
deriving DecidableEq

/-- One enqueue event on the job queue.  `delay` records the per-job delay the
enqueue requested; `QueueService.enqueue_deployment(deployment_id)` takes no
delay parameter, so every job it enqueues carries `delay = none` (immediate
delivery). -/
structure QueueJob where
  deployment_id : Nat
  delay : Option Nat
deriving DecidableEq

/-- The shared state one scheduling attempt observes and mutates: the store's
deployment and cluster rows, the queue's enqueue events, the current time, the
availability of the per-cluster mutex within the wait budget, and the store's
next autoincrement id. -/
structure SchedState where
  deployments : List DBDeployment
  clusters : List DBCluster
  queue : List QueueJob
  now : Nat
  lock_available : Bool
  next_id : Nat
deriving DecidableEq

/-- `QueueService.enqueue_deployment`: append one job for the deployment; the
method has no delay parameter, so the job is enqueued with no delay. -/
def enqueue_deployment (queue : List QueueJob) (deployment_id : Nat) : List QueueJob :=
  queue ++ [{ deployment_id := deployment_id, delay := none }]

/-- `SchedulerService._get_deployment_info`: convert a row to the engine's
snapshot record. -/
def to_info (d : DBDeployment) : DeploymentInfo :=
  { id := d.id
    name := d.name
    cluster_id := d.cluster_id
    resources := { ram := d.ram, cpu := d.cpu, gpu := d.gpu }
    priority := d.priority
    status := d.status
    created_at := d.created_at }

/-- `SchedulerService._get_cluster_info`: snapshot of a cluster row together
with its Running deployments. -/
def get_cluster_info (st : SchedState) (c : DBCluster) : ClusterInfo :=
  { id := c.id
    resources := { ram := c.ram, cpu := c.cpu, gpu := c.gpu }
    running_deployments :=
      (st.deployments.filter
        (fun d => decide (d.cluster_id = c.id ∧ d.status = "running"))).map to_info }

/-- Update the status (and `updated_at`) of the row with the given id. -/
def set_deployment_fields (deps : List DBDeployment) (id : Nat) (status : String)
    (now : Nat) : List DBDeployment :=
  deps.map (fun d => if d.id = id then { d with status := status, updated_at := now } else d)

/-- `SchedulerService._preempt_deployments`: for each selected deployment that
still exists, set its status to "pending", bump `updated_at`, and enqueue it
(with no delay — see `enqueue_deployment`). -/
def preempt_deployments (st : SchedState) (infos : List DeploymentInfo) : SchedState :=
  infos.foldl
    (fun s info =>
      if s.deployments.any (fun d => d.id == info.id) then
        { s with
          deployments := set_deployment_fields s.deployments info.id "pending" s.now
          queue := enqueue_deployment s.queue info.id }
      else s)
    st

/-- Outcome of one `SchedulerService.try_schedule_deployment` call: the boolean
it returns, or the `TimeoutError` that `RedisLock.__enter__` raises when the
mutex cannot be acquired within the wait budget. -/
inductive ScheduleOutcome where
  | ok (scheduled : Bool)
  | lockTimeout
deriving DecidableEq

/-- `SchedulerService.try_schedule_deployment`: return True at once for an
already-Running deployment; look up the deployment's cluster filtered to
status "active" and return False when none matches; acquire the per-cluster
mutex (raising `TimeoutError` when unavailable); invoke the placement engine
and either return False, or apply the preemptions and set the deployment
Running and return True. -/
def try_schedule_deployment (st : SchedState) (d : DBDeployment) :
    ScheduleOutcome × SchedState :=
  if d.status = "running" then (.ok true, st)
  else
    match st.clusters.find?
        (fun c => decide (c.id = d.cluster_id ∧ c.status = "active")) with
    | none => (.ok false, st)
    | some cluster =>
      if st.lock_available then
        match can_schedule_deployment (to_info d) (get_cluster_info st cluster) with
        | (false, _) => (.ok false, st)
        | (true, to_preempt) =>
          (.ok true,
            { preempt_deployments st to_preempt with
              deployments :=
                set_deployment_fields (preempt_deployments st to_preempt).deployments
                  d.id "running" st.now })
      else (.lockTimeout, st)

/-- Outcome of one `worker.process_deployment` job: completed, re-enqueued for
a later attempt, or failed by a propagating exception. -/
inductive WorkerOutcome where
  | done
  | requeued
  | raised
deriving DecidableEq

/-- `worker.process_deployment`: load the deployment (raising when missing),
invoke `try_schedule_deployment`; on False sleep and re-enqueue the id (again
with no delay), on True commit, and let any `TimeoutError` propagate so the
job fails. -/
def process_deployment (st : SchedState) (deployment_id : Nat) :
    WorkerOutcome × SchedState :=
  match st.deployments.find? (fun d => decide (d.id = deployment_id)) with
  | none => (.raised, st)
  | some d =>
    match try_schedule_deployment st d with
    | (.ok true, st1) => (.done, st1)
    | (.ok false, st1) =>
      (.requeued, { st1 with queue := enqueue_deployment st1.queue deployment_id })
    | (.lockTimeout, st1) => (.raised, st1)

/-! ### Deployment creation (`DeploymentService.create_deployment`) -/

/-- Outcome of `DeploymentService.create_deployment`: a new row persisted, the
existing colliding row returned, a `ValidationError` with its code, or the
`TypeError` raised when the code calls `enqueue_deployment(id, delay=10)`
although the method accepts no delay argument. -/
inductive CreateOutcome where
  | created (id : Nat)
  | existing (id : Nat)
  | validation_error (code : String)
  | type_error
deriving DecidableEq

/-- `DeploymentPriority.is_valid`: the priority is one of 1..5. -/
def is_valid_priority (priority : Int) : Bool :=
  priority == 1 || priority == 2 || priority == 3 || priority == 4 || priority == 5

/-- Whether the queue holds no job for the deployment
(`QueueService.get_deployment_status` returning "not_found"). -/
def queue_job_absent (queue : List QueueJob) (deployment_id : Nat) : Bool :=
  queue.all (fun j => !(j.deployment_id == deployment_id))

/-- `DeploymentService.create_deployment`: reject non-positive ram or cpu or
negative gpu, then an out-of-range priority, then a missing or non-Active
cluster of the user's organisation; on a name collision with a non-Deleted
deployment of the cluster return the existing row (re-enqueueing a Pending
one absent from the queue — a call passing `delay=10` to a method without
that parameter, hence a `TypeError`); otherwise persist a new Pending row and
enqueue it. -/
def create_deployment (st : SchedState) (user_org : Nat) (cluster_id : Nat)
    (name : String) (ram cpu gpu priority : Int) : CreateOutcome × SchedState :=
  if ram ≤ 0 ∨ cpu ≤ 0 ∨ gpu < 0 then
    (.validation_error "INVALID_RESOURCES", st)
  else if is_valid_priority priority = false then
    (.validation_error "INVALID_PRIORITY", st)
  else
    match st.clusters.find?
        (fun c => decide (c.id = cluster_id ∧ c.organisation_id = user_org ∧
          c.status = "active")) with
    | none => (.validation_error "CLUSTER_NOT_FOUND", st)
    | some _ =>
      match st.deployments.find?
          (fun d => decide (d.cluster_id = cluster_id ∧ d.name = name ∧
            d.status ≠ "deleted")) with
      | some existing =>
        if existing.status = "pending" ∧ queue_job_absent st.queue existing.id = true then
          (.type_error, st)
        else
          (.existing existing.id, st)
      | none =>
        (.created st.next_id,
          { st with
            deployments := st.deployments ++
              [{ id := st.next_id, name := name, cluster_id := cluster_id
                 status := "pending", priority := priority
                 ram := ram, cpu := cpu, gpu := gpu
                 created_at := st.now, updated_at := st.now }]
            queue := enqueue_deployment st.queue st.next_id
            next_id := st.next_id + 1 })

end Scheduler

namespace Scheduler

/-! ### Service-level fixtures -/

/-- A store row with `created_at = updated_at = 0`. -/
def mkRow (id : Nat) (name : String) (cid : Nat) (status : String)
    (priority ram cpu gpu : Int) : DBDeployment :=
  { id := id, name := name, cluster_id := cid, status := status
    priority := priority, ram := ram, cpu := cpu, gpu := gpu
    created_at := 0, updated_at := 0 }

/-- An Active cluster row with capacity (10,5,2). -/
def clActive : DBCluster :=
  { id := 1, organisation_id := 1, name := "c", ram := 10, cpu := 5, gpu := 2
    status := "active" }

/-- A Deleted cluster row with capacity (10,5,2). -/
def clDeleted : DBCluster :=
  { id := 1, organisation_id := 1, name := "c", ram := 10, cpu := 5, gpu := 2
    status := "deleted" }

/-- A pending deployment row targeting cluster 1. -/
def depPending : DBDeployment := mkRow 1 "web" 1 "pending" 3 1 1 0

/-- State for C5: the pending deployment's cluster exists but is Deleted. -/
def stC5 : SchedState :=
  { deployments := [depPending], clusters := [clDeleted], queue := []
    now := 5, lock_available := true, next_id := 2 }

/-- State for C6: an Active cluster, but the mutex cannot be acquired. -/
def stC6 : SchedState :=
  { deployments := [depPending], clusters := [clActive], queue := []
    now := 5, lock_available := false, next_id := 2 }

/-- A running deployment row, for the idempotence claim. -/
def depRunning : DBDeployment := mkRow 1 "web" 1 "running" 3 1 1 0

/-- State for C7: the deployment is already Running. -/
def stC7 : SchedState :=
  { deployments := [depRunning], clusters := [clActive], queue := []
    now := 5, lock_available := true, next_id := 2 }

/-- Scenario S2 as store rows: D1(6,3,1,pri=1) and D2(2,1,0,pri=2) running,
D3(7,4,1,pri=5) pending, on the Active cluster (10,5,2). -/
def rowD1 : DBDeployment := mkRow 1 "d1" 1 "running" 1 6 3 1

/-- Scenario S2 row D2. -/
def rowD2 : DBDeployment := mkRow 2 "d2" 1 "running" 2 2 1 0

/-- Scenario S2 row D3 (the candidate). -/
def rowD3 : DBDeployment := mkRow 3 "d3" 1 "pending" 5 7 4 1

/-- State for C8: scenario S2 at the service level. -/
def stC8 : SchedState :=
  { deployments := [rowD1, rowD2, rowD3], clusters := [clActive], queue := []
    now := 7, lock_available := true, next_id := 4 }

/-- A running deployment named "web", for the name-collision claim. -/
def rowWeb : DBDeployment := mkRow 1 "web" 1 "running" 3 2 1 0

/-- State for C9: cluster 1 Active, one non-Deleted deployment named "web". -/
def stC9 : SchedState :=
  { deployments := [rowWeb], clusters := [clActive], queue := []
    now := 0, lock_available := true, next_id := 2 }

/-! ### Claim theorems about the scheduler service -/

/-- Claim C5 (counterexample): with the cluster Deleted, one scheduling
attempt returns False and leaves the deployment Pending — it is not set to
Evicted — and the worker re-enqueues the job (a retry), so the outcome is not
Dropped. -/
theorem cluster_not_active_leaves_pending :
    try_schedule_deployment stC5 depPending = (.ok false, stC5) ∧
      (try_schedule_deployment stC5 depPending).2.deployments.map
        (fun d => d.status) = ["pending"] ∧
      process_deployment stC5 1 =
        (.requeued, { stC5 with queue := [{ deployment_id := 1, delay := none }] }) := by
  decide

/-- Claim C5 (amended): for every deployment that is not Running and whose
cluster is missing or not Active, the scheduling attempt returns False with the
store unchanged (the deployment keeps its Pending status, never Evicted), and
the worker re-enqueues the job for retry. -/
theorem cluster_not_active_defers (st : SchedState) (d : DBDeployment)
    (hst : d.status ≠ "running")
    (hcl : st.clusters.find?
      (fun c => decide (c.id = d.cluster_id ∧ c.status = "active")) = none)
    (hmem : st.deployments.find? (fun x => decide (x.id = d.id)) = some d) :
    try_schedule_deployment st d = (.ok false, st) ∧
      process_deployment st d.id =
        (.requeued, { st with queue := enqueue_deployment st.queue d.id }) := by
  have h1 : try_schedule_deployment st d = (.ok false, st) := by
    unfold try_schedule_deployment
    rw [if_neg hst, hcl]
  refine ⟨h1, ?_⟩
  simp only [process_deployment, hmem, h1]

/-- Witness for C5 (amended) at the Deleted-cluster state. -/
theorem cluster_not_active_defers_witness :
    try_schedule_deployment stC5 depPending = (.ok false, stC5) ∧
      process_deployment stC5 depPending.id =
        (.requeued, { stC5 with queue := enqueue_deployment stC5.queue depPending.id }) :=
  cluster_not_active_defers stC5 depPending (by decide) (by decide) (by decide)

/-- Claim C6 (counterexample): when the per-cluster mutex cannot be acquired
within the wait budget, `RedisLock.__enter__` raises `TimeoutError`: the
attempt's outcome is the propagating exception, not the Deferred outcome, and
the worker job fails without re-enqueueing (the queue stays empty). -/
theorem lock_unavailable_raises_timeout :
    try_schedule_deployment stC6 depPending = (.lockTimeout, stC6) ∧
      ScheduleOutcome.lockTimeout ≠ ScheduleOutcome.ok false ∧
      process_deployment stC6 1 = (.raised, stC6) := by
  decide

/-- Claim C6 (amended): when the mutex cannot be acquired within the wait
budget, the attempt leaves store state unchanged but raises `TimeoutError` to
the caller; the worker lets the exception propagate (the job fails) and does
not re-enqueue the deployment. -/
theorem lock_unavailable_propagates (st : SchedState) (d : DBDeployment)
    (cluster : DBCluster)
    (hst : d.status ≠ "running")
    (hcl : st.clusters.find?
      (fun c => decide (c.id = d.cluster_id ∧ c.status = "active")) = some cluster)
    (hlock : st.lock_available = false)
    (hmem : st.deployments.find? (fun x => decide (x.id = d.id)) = some d) :
    try_schedule_deployment st d = (.lockTimeout, st) ∧
      process_deployment st d.id = (.raised, st) := by
  have h1 : try_schedule_deployment st d = (.lockTimeout, st) := by
    unfold try_schedule_deployment
    rw [if_neg hst, hcl, hlock]
    rfl
  refine ⟨h1, ?_⟩
  simp only [process_deployment, hmem, h1]

/-- Witness for C6 (amended) at the lock-unavailable state. -/
theorem lock_unavailable_propagates_witness :
    try_schedule_deployment stC6 depPending = (.lockTimeout, stC6) ∧
      process_deployment stC6 depPending.id = (.raised, stC6) :=
  lock_unavailable_propagates stC6 depPending clActive (by decide) (by decide)
    (by decide) (by decide)

/-- Claim C7: invoking the scheduling attempt on a deployment whose status is
already Running returns True (Scheduled) with the state unchanged: no
deployment or cluster row is modified and no queue entry is added, so a second
invocation is a no-op. -/
theorem running_schedule_is_noop (st : SchedState) (d : DBDeployment)
    (h : d.status = "running") :
    try_schedule_deployment st d = (.ok true, st) := by
  unfold try_schedule_deployment
  rw [if_pos h]

/-- Witness for C7: re-delivering an already-Running deployment is a no-op. -/
theorem running_schedule_is_noop_witness :
    try_schedule_deployment stC7 depRunning = (.ok true, stC7) :=
  running_schedule_is_noop stC7 depRunning rfl

/-- Claim C8 (code evaluation at the failing input): admitting D3 in scenario
S2 preempts D1 and D2, sets them Pending, and enqueues each with NO delay —
`QueueService.enqueue_deployment` accepts no per-job delay parameter — where
the claim requires a delay of 10 seconds. -/
theorem preempted_requeued_without_delay :
    (try_schedule_deployment stC8 rowD3).1 = .ok true ∧
      (try_schedule_deployment stC8 rowD3).2.deployments.map (fun d => d.status) =
        ["pending", "pending", "running"] ∧
      (try_schedule_deployment stC8 rowD3).2.queue =
        [{ deployment_id := 1, delay := none }, { deployment_id := 2, delay := none }] ∧
      (Option.none : Option Nat) ≠ some 10 := by
  decide

/-- Claim C9 (counterexample): a creation request whose name collides with an
existing non-Deleted deployment on the same cluster does not raise a
validation error: the existing row is returned and the store is unchanged. -/
theorem name_collision_returns_existing :
    create_deployment stC9 1 1 "web" 1 1 0 3 = (.existing 1, stC9) := by
  decide

/-- Claim C9 (amended): creation rejects ram ≤ 0, cpu ≤ 0 or gpu < 0 (so a
(0,0,0) request is rejected) and then an out-of-range priority, each with a
validation error persisting nothing; a name collision with a non-Deleted
deployment on the same cluster persists nothing but raises no validation
error: the existing deployment is returned (or the re-enqueue of a Pending
one fails with a TypeError). -/
theorem create_deployment_checks (st : SchedState) (user_org cluster_id : Nat)
    (name : String) (ram cpu gpu priority : Int) :
    (ram ≤ 0 ∨ cpu ≤ 0 ∨ gpu < 0 →
      create_deployment st user_org cluster_id name ram cpu gpu priority =
        (.validation_error ("INVALID_RESOURCES"), st)) ∧
    (¬(ram ≤ 0 ∨ cpu ≤ 0 ∨ gpu < 0) → is_valid_priority priority = false →
      create_deployment st user_org cluster_id name ram cpu gpu priority =
        (.validation_error ("INVALID_PRIORITY"), st)) ∧
    (∀ c : DBCluster, ∀ existing : DBDeployment,
      ¬(ram ≤ 0 ∨ cpu ≤ 0 ∨ gpu < 0) → is_valid_priority priority = true →
      st.clusters.find?
        (fun x => decide (x.id = cluster_id ∧ x.organisation_id = user_org ∧
          x.status = "active")) = some c →
      st.deployments.find?
        (fun d => decide (d.cluster_id = cluster_id ∧ d.name = name ∧
          d.status ≠ "deleted")) = some existing →
      (create_deployment st user_org cluster_id name ram cpu gpu priority).2 = st ∧
        ((create_deployment st user_org cluster_id name ram cpu gpu priority).1 =
            .existing existing.id ∨
          (create_deployment st user_org cluster_id name ram cpu gpu priority).1 =
            .type_error)) := by
  refine ⟨?_, ?_, ?_⟩
  · intro h
    unfold create_deployment
    rw [if_pos h]
  · intro h hpri
    unfold create_deployment
    rw [if_neg h, if_pos hpri]
  · intro c existing h hpri hcl hcoll
    simp only [create_deployment, if_neg h, hpri, Bool.true_eq_false, if_false, hcl, hcoll]
    by_cases hb : existing.status = "pending" ∧ queue_job_absent st.queue existing.id = true
    · rw [if_pos hb]
      exact ⟨rfl, Or.inr rfl⟩
    · rw [if_neg hb]
      exact ⟨rfl, Or.inl rfl⟩

/-- Witness for C9 (amended): a (0,0,0) request is rejected with
INVALID_RESOURCES and nothing persisted, and a collision with the running
deployment "web" persists nothing and returns it. -/
theorem create_deployment_checks_witness :
    create_deployment stC9 1 1 "zero" 0 0 0 3 =
      (.validation_error ("INVALID_RESOURCES"), stC9) ∧
      ((create_deployment stC9 1 1 "web" 1 1 0 3).2 = stC9 ∧
        ((create_deployment stC9 1 1 "web" 1 1 0 3).1 = .existing rowWeb.id ∨
          (create_deployment stC9 1 1 "web" 1 1 0 3).1 = .type_error)) :=
  ⟨(create_deployment_checks stC9 1 1 "zero" 0 0 0 3).1 (by decide),
    (create_deployment_checks stC9 1 1 "web" 1 1 0 3).2.2 clActive rowWeb
      (by decide) (by decide) (by decide) (by decide)⟩

end Scheduler
